import Mathlib

/-!
Shallow embedding of the grip FFI layer, translated from
`src/rust/src/ffi/mod.rs` and `src/rust/src/ffi/ext.rs`.

The handle table (`cell_map.rs`) and the networking queue
(`networking_queue.rs`) belong to this repository but are not among the
given sources; where a claim depends on them they are modelled from the
specification, and each such definition says so in its doc comment.
-/

namespace Grip

/-- AMX cell type: the Rust code declares `type Cell = isize`. -/
abbrev Cell := Int

/-- Modelled from the spec: the Handle Registry (`cell_map.rs` is not under
`src/`).  One table per resource kind; a monotonically increasing counter per
table; allocation is take-counter-then-increment; lookups on absent ids yield
`none`; removal is immediate and visible to all subsequent lookups. -/
structure CellMap (α : Type) where
  entries : List (Cell × α)
  nextId : Cell

/-- Modelled from the spec: a fresh, empty table. -/
def CellMap.new {α : Type} : CellMap α :=
  ⟨[], 0⟩

/-- Modelled from the spec: `peek_next_id` is a pure query returning the id
the next `insert` will produce, without mutating state. -/
def CellMap.peek_id {α : Type} (m : CellMap α) : Cell :=
  m.nextId

/-- Modelled from the spec: `insert(value) -> id` stores the value under a
freshly allocated id (the counter value) and increments the counter. -/
def CellMap.insert_with_unique_id {α : Type} (m : CellMap α) (v : α) :
    Cell × CellMap α :=
  (m.nextId, ⟨(m.nextId, v) :: m.entries, m.nextId + 1⟩)

/-- Modelled from the spec: `get(id)`; an absent id yields `none`, never a
fault. -/
def CellMap.get_with_id {α : Type} (m : CellMap α) (id : Cell) : Option α :=
  (m.entries.find? (fun p => p.1 == id)).map (fun p => p.2)

/-- Modelled from the spec: `remove(id)`; an absent id yields `none`; a
present id detaches the entry and returns the value. -/
def CellMap.remove_with_id {α : Type} (m : CellMap α) (id : Cell) :
    Option α × CellMap α :=
  match m.entries.find? (fun p => p.1 == id) with
  | some p => (some p.2, ⟨m.entries.filter (fun q => q.1 != id), m.nextId⟩)
  | none => (none, m)

/-- Modelled from the spec: `clear()` removes and destroys all entries (used
at shutdown to force-cancel everything still outstanding). -/
def CellMap.clear {α : Type} (m : CellMap α) : CellMap α :=
  ⟨[], m.nextId⟩

/-- Tagged JSON value variant, standing for `serde_json::Value` as used by
the FFI layer (objects as key-value lists, first match wins on lookup). -/
inductive JValue : Type
  | null : JValue
  | str (s : String) : JValue
  | num (n : Int) : JValue
  | obj (fields : List (String × JValue)) : JValue
  | arr (elems : List JValue) : JValue
  | bool (b : Bool) : JValue

/-- Key lookup in a JSON object's field list (`serde_json::Map::get`). -/
def jsonObjGet (fields : List (String × JValue)) (name : String) :
    Option JValue :=
  (fields.find? (fun p => p.1 == name)).map (fun p => p.2)

/-- The three distinct `bail!` sites of `ext.rs`, with the data each one
formats into its message. -/
inductive JsonIndexError : Type
  | emptySeparator (name : String) : JsonIndexError
  | missingKey (name : String) : JsonIndexError
  | notObject (name : String) : JsonIndexError

/-- Embedding of the non-dot branch of `Value::index_selective_safe`
(`ext.rs`): plain object lookup, failing on a non-object or a missing key. -/
def indexObjectSafe (v : JValue) (name : String) :
    Except JsonIndexError JValue :=
  match v with
  | .obj m =>
    match jsonObjGet m name with
    | some val => .ok val
    | none => .error (.missingKey name)
  | _ => .error (.notObject name)

/-- Embedding of the loop body of `Value::dot_index_safe` (`ext.rs`): iterate
over the segments of the already-split path; an empty segment aborts with the
full path in the message, otherwise descend via the non-dot lookup. -/
def dotIndexLoop (fullName : String) : JValue → List String →
    Except JsonIndexError JValue
  | it, [] => .ok it
  | it, element :: rest =>
    if element = "" then
      .error (.emptySeparator fullName)
    else
      match indexObjectSafe it element with
      | .ok next => dotIndexLoop fullName next rest
      | .error e => .error e

/-- Embedding of `Value::dot_index_safe` (`ext.rs`): split the path on the
dot separator (Rust `split('.')`, which yields one empty segment for the
empty string) and descend segment by segment. -/
def dot_index_safe (v : JValue) (name : String) :
    Except JsonIndexError JValue :=
  dotIndexLoop name v (name.splitOn ".")

/-- Embedding of `Value::index_selective_safe` (`ext.rs`). -/
def index_selective_safe (v : JValue) (name : String)
    ( dot_notation : Bool) : Except JsonIndexError JValue :=
  if dot_notation then dot_index_safe v name else indexObjectSafe v name

/-- Modelled from the spec: explicit recursive descent over the tagged value
variant, failing with a structured error on an empty path segment, an attempt
to index a non-object, or a missing key — never silently returning a default.
Error payloads follow the source's messages: the empty-segment error carries
the full path, the other two carry the offending segment. -/
def specDotPathDescent (fullName : String) : JValue → List String →
    Except JsonIndexError JValue
  | v, [] => .ok v
  | v, seg :: rest =>
    if seg = "" then
      .error (.emptySeparator fullName)
    else
      match v with
      | .obj m =>
        match jsonObjGet m seg with
        | some next => specDotPathDescent fullName next rest
        | none => .error (.missingKey seg)
      | _ => .error (.notObject seg)

/-- Backlog multiplier computed by `grip_process_request` (`mod.rs`):
`std::cmp::min(number_of_pending_requests() / 500, 1)` in `usize`
arithmetic. -/
def backlogMultiplier (pending : Nat) : Nat :=
  min (pending / 500) 1

/-- The observable effect of one `grip_process_request` call: the arguments
passed to `execute_queue_with_limit`, and whether the fastening warning
branch (`multiplier > 1`) printed. -/
structure ExecuteQueueCall : Type where
  limit : Nat
  delayMicros : Nat
  warningFired : Bool

/-- Embedding of `grip_process_request` (`mod.rs`): computes the backlog
multiplier, prints the fastening warning when it exceeds 1, and calls
`execute_queue_with_limit` with `callbacks_per_frame * multiplier` and the
configured inter-attempt delay. -/
def grip_process_request (pending callbacks_per_frame delayMicros : Nat) :
    ExecuteQueueCall :=
  let multiplier := backlogMultiplier pending
  { limit := callbacks_per_frame * multiplier
    delayMicros := delayMicros
    warningFired := decide (multiplier > 1) }

/-- Error kinds of `errors.rs` that the FFI layer inspects, as used by
`grip_get_response_state`. -/
inductive GripErrorKind : Type
  | requestCancelled : GripErrorKind
  | requestTimeout : GripErrorKind
  | other (msg : String) : GripErrorKind

/-- An HTTP response as the FFI layer observes it. -/
structure Response : Type where
  statusCode : Nat
  body : List Nat

/-- Request options: header multimap and optional timeout (milliseconds). -/
structure RequestOptions : Type where
  headers : List (String × String)
  timeout : Option Nat

/-- The default option set used when the options handle is the absent
sentinel `-1`. -/
def RequestOptions.default : RequestOptions :=
  ⟨[], none⟩

/-- Cancellation token stored in the cancellations table; its presence is
the sole signal of request liveness. -/
structure RequestCancellation : Type where
  token : Unit

/-- The `ModuleStorage` struct of `mod.rs` (the queue itself and the
`error_logger` function pointer are modelled separately; logging shows up as
an explicit log component in each operation's result). -/
structure ModuleStorage : Type where
  current_response : Option (Except GripErrorKind Response)
  bodies_handles : CellMap (List Nat)
  cancellations_handles : CellMap RequestCancellation
  json_handles : CellMap JValue
  options_handles : CellMap RequestOptions
  callbacks_per_frame : Nat
  microseconds_delay_between_attempts : Nat

/-- Method decoding at the top of `grip_request` (`mod.rs`): codes 0..3 map
to Get/Post/Put/Delete, anything else is a logged FFI error. -/
inductive RequestType : Type
  | get : RequestType
  | post : RequestType
  | put : RequestType
  | delete : RequestType

/-- The `match request_type` at the top of `grip_request`. -/
def decodeRequestType (request_type : Cell) : Option RequestType :=
  if request_type = 0 then some .get
  else if request_type = 1 then some .post
  else if request_type = 2 then some .put
  else if request_type = 3 then some .delete
  else none

/-- A C-string argument crossing the FFI boundary: null pointer, a non-UTF-8
byte sequence, or a valid UTF-8 string. -/
inductive CStrArg : Type
  | nullPtr : CStrArg
  | invalidUtf8 : CStrArg
  | utf8 (s : String) : CStrArg

/-- Body lookup in `grip_request`: table lookup first, then the `-1` absent
sentinel falls back to the shared empty body. -/
def requestBodyArg (st : ModuleStorage) (body_handle : Cell) :
    Option (List Nat) :=
  (st.bodies_handles.get_with_id body_handle).orElse
    (fun _ => if body_handle = -1 then some [] else none)

/-- Options lookup in `grip_request`: table lookup first, then the `-1`
absent sentinel falls back to the shared default options. -/
def requestOptionsArg (st : ModuleStorage) (options_handle : Cell) :
    Option RequestOptions :=
  (st.options_handles.get_with_id options_handle).orElse
    (fun _ => if options_handle = -1 then some RequestOptions.default else none)

/-- The request record handed to `Queue::send_request`, together with the
cancellation-table id the completion closure captured (the id it will remove
when the callback has run). -/
structure SubmittedRequest : Type where
  httpType : RequestType
  uri : String
  body : List Nat
  options : RequestOptions
  closureCancellationId : Cell

/-- Result of one `grip_request` call: the returned cell, the module state
afterwards, the request handed to the queue (if any), and the logged
diagnostics. -/
structure GripRequestResult : Type where
  ret : Cell
  state : ModuleStorage
  submitted : Option SubmittedRequest
  log : List String

/-- Embedding of `grip_request` (`mod.rs`).  Checks run in source order:
method code, URI null/UTF-8, body handle, options handle; then the next
cancellation id is peeked, the URI is parsed while the request is built (a
parse failure still returns 0 with nothing submitted), the request goes to
the queue, and the returned cancellation token is inserted under the peeked
id, which is returned.  URI parsing is external (`http::Uri`), so it enters
as the `parseOk` parameter. -/
def grip_request (st : ModuleStorage) (parseOk : String → Bool)
    (uri : CStrArg) (body_handle request_type options_handle : Cell) :
    GripRequestResult :=
  match decodeRequestType request_type with
  | none => ⟨0, st, none, ["Invalid request type " ++ toString request_type]⟩
  | some httpType =>
    match uri with
    | .nullPtr => ⟨0, st, none, ["Invalid URI."]⟩
    | .invalidUtf8 => ⟨0, st, none, ["URI is not UTF-8"]⟩
    | .utf8 u =>
      match requestBodyArg st body_handle with
      | none => ⟨0, st, none, ["Invalid body handle: " ++ toString body_handle]⟩
      | some body =>
        match requestOptionsArg st options_handle with
        | none =>
          ⟨0, st, none, ["Invalid options handle: " ++ toString options_handle]⟩
        | some options =>
          let next_cancellation_id := st.cancellations_handles.peek_id
          if parseOk u then
            let inserted := st.cancellations_handles.insert_with_unique_id ⟨()⟩
            ⟨inserted.1, {st with cancellations_handles := inserted.2},
              some ⟨httpType, u, body, options, next_cancellation_id⟩, []⟩
          else ⟨0, st, none, ["URI parsing error: " ++ u]⟩

/-- One run of the completion closure built inside `grip_request`
(`mod.rs`): the module state the handler is entered with, and the state
after the closure returns. -/
structure ClosureRun : Type where
  handlerInput : ModuleStorage
  final : ModuleStorage

/-- Embedding of the completion closure of `grip_request` (`mod.rs`): set
`current_response` to the resolved response, invoke the handler (which may
itself mutate the module), remove the captured `next_cancellation_id` from
the cancellations table, and reset `current_response` to `None`. -/
def requestCompletionClosure (next_cancellation_id : Cell)
    (handler : ModuleStorage → ModuleStorage)
    (response : Except GripErrorKind Response) (st : ModuleStorage) :
    ClosureRun :=
  let st1 := {st with current_response := some response}
  let st2 := handler st1
  let st3 := {st2 with cancellations_handles :=
    (st2.cancellations_handles.remove_with_id next_cancellation_id).2}
  ⟨st1, {st3 with current_response := none}⟩

/-- Result of an FFI call that returns a cell and may mutate the module and
log diagnostics. -/
structure CellCallResult : Type where
  ret : Cell
  state : ModuleStorage
  log : List String

/-- Embedding of `grip_cancel_request` (`mod.rs`): remove the cancellation
entry; an absent handle logs a diagnostic and returns 0, a live one is
removed and 1 is returned. -/
def grip_cancel_request (st : ModuleStorage) (cancellation : Cell) :
    CellCallResult :=
  match st.cancellations_handles.remove_with_id cancellation with
  | (none, _) =>
    ⟨0, st, ["Cancellation with the id " ++ toString cancellation ++
      " doesn't exist."]⟩
  | (some _, m) => ⟨1, {st with cancellations_handles := m}, []⟩

/-- Embedding of `grip_get_response_state` (`mod.rs`): outside a callback
(`current_response` is `None`) it logs a diagnostic and returns 0; inside a
callback it classifies the response as 1 (cancelled), 4 (timeout), 2 (other
error) or 3 (success). -/
def grip_get_response_state (st : ModuleStorage) : Cell × List String :=
  match st.current_response with
  | none =>
    (0, ["Response state can only be received in the request callback"])
  | some (.error e) =>
    match e with
    | .requestCancelled => (1, [])
    | .requestTimeout => (4, [])
    | .other _ => (2, [])
  | some (.ok _) => (3, [])

/-- Outcome of an FFI call in which Rust may panic (abort through the FFI
boundary) instead of returning: `ok` is a normal typed return, `panicked`
is a Rust panic. -/
inductive FFIOutcome (α : Type) : Type
  | ok (v : α) : FFIOutcome α
  | panicked (msg : String) : FFIOutcome α

/-- Whether an FFI outcome is a Rust panic. -/
def FFIOutcome.isPanicked {α : Type} : FFIOutcome α → Bool
  | .ok _ => false
  | .panicked _ => true

/-- Embedding of `grip_json_array_get_value` (`mod.rs`).  An unknown handle,
a non-array value or a negative index are logged typed errors returning 0; a
valid non-negative index clones the element into a fresh json handle; an
index at or beyond the array's length hits Rust's `Vec` index operator and
panics. -/
def grip_json_array_get_value (st : ModuleStorage) (array index : Cell) :
    FFIOutcome CellCallResult :=
  match st.json_handles.get_with_id array with
  | none => .ok ⟨0, st, ["Invalid JSON value handle " ++ toString array]⟩
  | some (.arr vec) =>
    if index < 0 then
      .ok ⟨0, st, ["Index/Size " ++ toString index ++
        " should be greater or equal to zero."]⟩
    else if h : index.toNat < vec.length then
      let inserted := st.json_handles.insert_with_unique_id
        (vec.get ⟨index.toNat, h⟩)
      .ok ⟨inserted.1, {st with json_handles := inserted.2}, []⟩
    else .panicked "index out of bounds: Vec index past the end"
  | some _ => .ok ⟨0, st, ["JSON Handle is not array."]⟩

/-- Embedding of `grip_json_array_get_string` (`mod.rs`).  Same structure as
`grip_json_array_get_value`; on a string element the copy into the caller's
buffer returns `min(buffer_size, length of the source with its NUL)`; an
index at or beyond the array's length panics in Rust's `Vec` index
operator. -/
def grip_json_array_get_string (st : ModuleStorage)
    (array index buffer_size : Cell) : FFIOutcome CellCallResult :=
  match st.json_handles.get_with_id array with
  | none => .ok ⟨0, st, ["Invalid JSON value handle " ++ toString array]⟩
  | some (.arr vec) =>
    if index < 0 then
      .ok ⟨0, st, ["Index/Size " ++ toString index ++
        " should be greater or equal to zero."]⟩
    else if h : index.toNat < vec.length then
      match vec.get ⟨index.toNat, h⟩ with
      | .str s =>
        if buffer_size < 0 then
          .ok ⟨0, st, ["Index/Size " ++ toString buffer_size ++
            " should be greater or equal to zero."]⟩
        else .ok ⟨min buffer_size ((s.length : Int) + 1), st, []⟩
      | _ => .ok ⟨0, st, ["JSON Handle is not string."]⟩
    else .panicked "index out of bounds: Vec index past the end"
  | some _ => .ok ⟨0, st, ["JSON Handle is not array."]⟩

/-- Digit-folding core of unsigned decimal parsing. -/
def parseUsizeCore : List Char → Nat → Option Nat
  | [], acc => some acc
  | c :: cs, acc =>
    if c.isDigit then parseUsizeCore cs (acc * 10 + (c.toNat - 48)) else none

/-- Rust's `str::parse::<usize>` as `grip_init` applies it to the config
values: an optional leading plus sign followed by at least one decimal
digit; anything else is unparseable. -/
def parseUsize (s : String) : Option Nat :=
  match s.data with
  | [] => none
  | '+' :: [] => none
  | '+' :: cs => parseUsizeCore cs 0
  | cs => parseUsizeCore cs 0

/-- One section of the `grip.ini` configuration file. -/
structure IniSection : Type where
  entries : List (String × String)

/-- Key lookup inside one ini section. -/
def IniSection.get (s : IniSection) (key : String) : Option String :=
  (s.entries.find? (fun p => p.1 == key)).map (fun p => p.2)

/-- A parsed ini file. -/
structure Ini : Type where
  sections : List (String × IniSection)

/-- Section lookup (`Ini::section`). -/
def Ini.getSection (ini : Ini) (name : String) : Option IniSection :=
  (ini.sections.find? (fun p => p.1 == name)).map (fun p => p.2)

/-- The `ModuleStorage` literal built by `grip_init`: fresh tables, no
current response, and the two values read from the config. -/
def freshModule (cpf delayMicros : Nat) : ModuleStorage :=
  { current_response := none
    bodies_handles := CellMap.new
    cancellations_handles := CellMap.new
    json_handles := CellMap.new
    options_handles := CellMap.new
    callbacks_per_frame := cpf
    microseconds_delay_between_attempts := delayMicros }

/-- Embedding of `grip_init` (`mod.rs`).  A second call is a no-op; a config
file that fails to open or parse, a missing `[queue]` section, or a missing
or unparseable `callbacks-per-frame` or `microseconds-delay-between-attempts`
key panics (`unwrap` — a fatal startup abort); otherwise the module storage
is created from the two parsed values.  `loaded` is the result of
`Ini::load_from_file` (`none` is a load failure). -/
def grip_init (module : Option ModuleStorage) (loaded : Option Ini) :
    FFIOutcome (Option ModuleStorage) :=
  if module.isSome then .ok module
  else
    match loaded with
    | none => .panicked "Can't parse/open grip config"
    | some ini =>
      match ini.getSection "queue" with
      | none => .panicked "Missing [queue] section in the grip.ini config"
      | some queue_section =>
        match queue_section.get "callbacks-per-frame" with
        | none =>
          .panicked "Missing queue.callbacks-per-frame key in the grip.ini config"
        | some raw_cpf =>
          match parseUsize raw_cpf with
          | none => .panicked "callbacks-per-frame parse failure"
          | some cpf =>
            match queue_section.get "microseconds-delay-between-attempts" with
            | none =>
              .panicked "Missing queue.microseconds-delay-between-attempts key in the grip.ini config"
            | some raw_delay =>
              match parseUsize raw_delay with
              | none =>
                .panicked "microseconds-delay-between-attempts parse failure"
              | some delayMicros => .ok (some (freshModule cpf delayMicros))

/-- Embedding of `grip_deinit` (`mod.rs`): when the module is initialized,
the cancellations table is cleared first (cancelling all operations before
the queue is stopped), then `MODULE` is set to `None`.  The first component
is the module state at the instant after the clear and before the drop; the
second is `MODULE` afterwards. -/
def grip_deinit (module : Option ModuleStorage) :
    Option ModuleStorage × Option ModuleStorage :=
  match module with
  | some st =>
    (some {st with cancellations_handles := st.cancellations_handles.clear},
      none)
  | none => (none, none)

/-- A completion produced by a worker: the cancellation id of the request it
belongs to and the resolved outcome. -/
structure CompletionRecord : Type where
  cancellationId : Cell
  response : Except GripErrorKind Response

/-- Modelled from the spec: the queue state the drain operates on — the
cancellation-token table, the FIFO completion buffer, and a count of callback
invocations made so far. -/
structure QueueState : Type where
  tokens : CellMap RequestCancellation
  buffer : List CompletionRecord
  callbacksFired : Nat

/-- Modelled from the spec: one drain step pops the oldest ready completion;
if its cancellation token is still present the token is removed and the
callback is invoked exactly once, otherwise the record is discarded silently
without invoking its callback. -/
def drainOne (qs : QueueState) : QueueState :=
  match qs.buffer with
  | [] => qs
  | r :: rest =>
    match qs.tokens.get_with_id r.cancellationId with
    | some _ =>
      ⟨(qs.tokens.remove_with_id r.cancellationId).2, rest,
        qs.callbacksFired + 1⟩
    | none => ⟨qs.tokens, rest, qs.callbacksFired⟩

/-- Modelled from the spec: `drain(max_callbacks, _)` performs at most
`max_callbacks` drain steps. -/
def drain (n : Nat) (qs : QueueState) : QueueState :=
  match n with
  | 0 => qs
  | n + 1 => drain n (drainOne qs)

/-- Modelled from the spec: `shutdown()` calls `clear()` on the cancellation
table (forcing all outstanding requests into the suppressed state) before
discarding the queue. -/
def queueShutdown (qs : QueueState) : QueueState :=
  {qs with tokens := qs.tokens.clear}

/-- Events that can still happen after shutdown begins: a worker finishes
(its completion record arrives in the buffer) or the host drains.  No new
submission can occur: after `grip_deinit` the module is gone. -/
inductive PostShutdownEvent : Type
  | workerFinish (r : CompletionRecord) : PostShutdownEvent
  | hostDrain (n : Nat) : PostShutdownEvent

/-- Effect of one post-shutdown event on the queue state. -/
def stepEvent (qs : QueueState) : PostShutdownEvent → QueueState
  | .workerFinish r => {qs with buffer := qs.buffer ++ [r]}
  | .hostDrain n => drain n qs

/-- Fold a trace of post-shutdown events over the queue state. -/
def runEvents (qs : QueueState) (evs : List PostShutdownEvent) : QueueState :=
  evs.foldl stepEvent qs

/-- Host-thread events between two points outside any callback: a cancel
call, or the delivery of one completion (the full closure, handler
included). -/
inductive HostEvent : Type
  | cancelRequest (h : Cell) : HostEvent
  | completionDelivery (id : Cell) (handler : ModuleStorage → ModuleStorage)
      (resp : Except GripErrorKind Response) : HostEvent

/-- Effect of one host-thread event on the module state. -/
def stepHost (st : ModuleStorage) : HostEvent → ModuleStorage
  | .cancelRequest h => (grip_cancel_request st h).state
  | .completionDelivery id f resp => (requestCompletionClosure id f resp st).final

/-- Modelled from the spec: the enumeration of submission errors —
invalid method code, null / non-UTF-8 / malformed URI, or a body or options
handle that is neither a live table entry nor the absent sentinel `-1`. -/
def specSubmissionErrorCond (st : ModuleStorage) (parseOk : String → Bool)
    (uri : CStrArg) (body_handle request_type options_handle : Cell) : Prop :=
  (¬ (request_type = 0 ∨ request_type = 1 ∨ request_type = 2 ∨
      request_type = 3)) ∨
  uri = CStrArg.nullPtr ∨ uri = CStrArg.invalidUtf8 ∨
  (∃ u, uri = CStrArg.utf8 u ∧ parseOk u = false) ∨
  (st.bodies_handles.get_with_id body_handle = none ∧ body_handle ≠ -1) ∨
  (st.options_handles.get_with_id options_handle = none ∧ options_handle ≠ -1)

/-- Json table of the concrete state used to exercise the array accessors:
one handle (id 0) holding the empty array. -/
def arrayStateJson : CellMap JValue :=
  (CellMap.new.insert_with_unique_id (JValue.arr [])).2

/-- Concrete module state holding the empty array under json handle 0. -/
def arrayState : ModuleStorage :=
  {freshModule 1 1 with json_handles := arrayStateJson}

/-- Concrete configuration file: a `[queue]` section holding the two keys
`grip_init` reads, and nothing else — in particular no worker-thread-count
key anywhere. -/
def twoKeyIni : Ini :=
  ⟨[("queue", ⟨[("callbacks-per-frame", "100"),
    ("microseconds-delay-between-attempts", "250")]⟩)]⟩

theorem filter_ne_find_none {α : Type} (id : Cell) (l : List (Cell × α)) :
    (l.filter (fun q => q.1 != id)).find? (fun p => p.1 == id) = none := by
  induction l with
  | nil => rfl
  | cons a t ih =>
    by_cases ha : a.1 = id
    · simp [List.filter_cons, ha, ih]
    · simp [List.filter_cons, ha, List.find?_cons, ih]

theorem CellMap.get_clear {α : Type} (m : CellMap α) (id : Cell) :
    (m.clear).get_with_id id = none := rfl

theorem CellMap.remove_of_get_none {α : Type} (m : CellMap α) (id : Cell)
    (h : m.get_with_id id = none) : m.remove_with_id id = (none, m) := by
  unfold CellMap.get_with_id at h
  unfold CellMap.remove_with_id
  cases hf : m.entries.find? (fun p => p.1 == id) with
  | none => rfl
  | some p => rw [hf] at h; simp at h

theorem CellMap.get_remove_self {α : Type} (m : CellMap α) (id : Cell) :
    ((m.remove_with_id id).2).get_with_id id = none := by
  unfold CellMap.remove_with_id
  cases hf : m.entries.find? (fun p => p.1 == id) with
  | none => simp [CellMap.get_with_id, hf]
  | some p => simp [CellMap.get_with_id, filter_ne_find_none]

/-- C1: for every module state the backlog multiplier computed by
`grip_process_request` as `min(number_of_pending_requests / 500, 1)` is at
most 1; consequently the fastening-execution warning branch guarded by
`multiplier > 1` never executes, and the limit passed to
`execute_queue_with_limit` never exceeds `callbacks_per_frame`. -/
theorem backlog_multiplier_clamped (pending cpf delayMicros : Nat) :
    backlogMultiplier pending ≤ 1 ∧
    (grip_process_request pending cpf delayMicros).warningFired = false ∧
    (grip_process_request pending cpf delayMicros).limit ≤ cpf := by
  have hm : backlogMultiplier pending ≤ 1 := min_le_right _ _
  refine ⟨hm, ?_, ?_⟩
  · show decide (backlogMultiplier pending > 1) = false
    exact decide_eq_false (Nat.not_lt.mpr hm)
  · show cpf * backlogMultiplier pending ≤ cpf
    calc cpf * backlogMultiplier pending ≤ cpf * 1 :=
          Nat.mul_le_mul_left _ hm
      _ = cpf := Nat.mul_one cpf

/-- C4: whenever fewer than 500 requests are pending (including zero),
`grip_process_request` computes `multiplier = pending / 500 = 0` by integer
division and therefore calls `execute_queue_with_limit` with a callback
limit of `callbacks_per_frame * 0 = 0`. -/
theorem process_request_zero_limit_under_threshold
    (pending cpf delayMicros : Nat) (h : pending < 500) :
    backlogMultiplier pending = 0 ∧
    (grip_process_request pending cpf delayMicros).limit = 0 := by
  have h0 : pending / 500 = 0 := Nat.div_eq_of_lt h
  constructor
  · simp [backlogMultiplier, h0]
  · show cpf * backlogMultiplier pending = 0
    simp [backlogMultiplier, h0]

theorem process_request_zero_limit_witness :
    (0 : Nat) < 500 ∧
    (backlogMultiplier 0 = 0 ∧ (grip_process_request 0 16 1000).limit = 0) :=
  ⟨by decide, process_request_zero_limit_under_threshold 0 16 1000 (by decide)⟩

theorem dotIndexLoop_eq_specDescent (fullName : String)
    (segs : List String) : ∀ (v : JValue),
    dotIndexLoop fullName v segs = specDotPathDescent fullName v segs := by
  induction segs with
  | nil => intro v; rfl
  | cons s rest ih =>
    intro v
    by_cases hs : s = ""
    · simp [dotIndexLoop, specDotPathDescent, hs]
    · simp only [dotIndexLoop, specDotPathDescent, if_neg hs]
      cases v with
      | obj m =>
        simp only [indexObjectSafe]
        cases jsonObjGet m s with
        | none => rfl
        | some next => exact ih next
      | null => rfl
      | str s2 => rfl
      | num n => rfl
      | arr a => rfl
      | bool b => rfl

/-- C5: `dot_index_safe` — and `index_selective_safe` with dot notation
on — is exactly the explicit recursive descent over the tagged value
variant: it fails with a structured error on an empty path segment, on
descent reaching a non-object, or on a missing key, never returns a default,
and on success returns the sub-value reached through each segment in
order. -/
theorem dot_index_matches_spec_descent (v : JValue) (name : String) :
    index_selective_safe v name true = dot_index_safe v name ∧
    dot_index_safe v name = specDotPathDescent name v (name.splitOn ".") := by
  exact ⟨rfl, dotIndexLoop_eq_specDescent name (name.splitOn ".") v⟩

/-- C2: evaluation of the code at the failing input.  With json handle 0
holding the empty array, `grip_json_array_get_value` and
`grip_json_array_get_string` at index 0 — an index at the array's length —
panic in Rust's `Vec` index operator instead of resolving to a typed error,
while a negative index does resolve to a typed error result.  This refutes
the no-panic claim for malformed requests as literally stated; the source
guards the sign of the index but not its upper bound. -/
theorem array_accessor_out_of_bounds_panics :
    (grip_json_array_get_value arrayState 0 0).isPanicked = true ∧
    (grip_json_array_get_string arrayState 0 0 64).isPanicked = true ∧
    (grip_json_array_get_value arrayState 0 (-5)).isPanicked = false :=
  ⟨rfl, rfl, rfl⟩

/-- C9 counterexample: a configuration whose `[queue]` section holds only
`callbacks-per-frame` and `microseconds-delay-between-attempts` — no
worker-thread-count anywhere — initializes successfully rather than being a
fatal startup error, refuting the claim that all three values are
required. -/
theorem grip_init_not_fatal_without_worker_threads :
    grip_init none (some twoKeyIni) = .ok (some (freshModule 100 250)) := by
  show (if (none : Option ModuleStorage).isSome then _ else _) = _
  norm_num
  rfl

/-- C9 (amended): initialization requires exactly the two externally sourced
configuration values `callbacks-per-frame` and
`microseconds-delay-between-attempts` from the `[queue]` section; init is a
fatal startup error (a panic) exactly when the file fails to load or either
value is missing or unparseable, and otherwise builds the module from the
two parsed values.  No worker thread count is read from configuration. -/
theorem grip_init_requires_exactly_two_values (cfg : Option Ini) :
    ((grip_init none cfg).isPanicked = true ↔
      ¬ ∃ ini qsec s1 n1 s2 n2, cfg = some ini ∧
        ini.getSection "queue" = some qsec ∧
        qsec.get "callbacks-per-frame" = some s1 ∧ parseUsize s1 = some n1 ∧
        qsec.get "microseconds-delay-between-attempts" = some s2 ∧
        parseUsize s2 = some n2) ∧
    (∀ ini qsec s1 n1 s2 n2, cfg = some ini →
        ini.getSection "queue" = some qsec →
        qsec.get "callbacks-per-frame" = some s1 → parseUsize s1 = some n1 →
        qsec.get "microseconds-delay-between-attempts" = some s2 →
        parseUsize s2 = some n2 →
        grip_init none cfg = .ok (some (freshModule n1 n2))) := by
  cases cfg with
  | none =>
    refine ⟨?_, ?_⟩
    · have hred : grip_init none none = .panicked "Can't parse/open grip config" := rfl
      simp only [hred, FFIOutcome.isPanicked, true_iff]
      rintro ⟨ini, qsec, s1, n1, s2, n2, hcfg, -⟩
      exact Option.noConfusion hcfg
    · intro ini qsec s1 n1 s2 n2 hcfg
      exact absurd hcfg (by simp)
  | some ini =>
    cases hq : ini.getSection "queue" with
    | none =>
      refine ⟨?_, ?_⟩
      · have hred : grip_init none (some ini) =
            .panicked "Missing [queue] section in the grip.ini config" := by
          simp [grip_init, hq]
        simp only [hred, FFIOutcome.isPanicked, true_iff]
        rintro ⟨ini2, qsec, s1, n1, s2, n2, hcfg, hq2, -⟩
        simp only [Option.some.injEq] at hcfg
        subst hcfg
        rw [hq] at hq2
        exact Option.noConfusion hq2
      · intro ini2 qsec s1 n1 s2 n2 hcfg hq2 h1 hn1 h2 hn2
        simp only [Option.some.injEq] at hcfg
        subst hcfg
        rw [hq] at hq2
        exact Option.noConfusion hq2
    | some qsec =>
      cases h1 : qsec.get "callbacks-per-frame" with
      | none =>
        refine ⟨?_, ?_⟩
        · have hred : grip_init none (some ini) =
              .panicked "Missing queue.callbacks-per-frame key in the grip.ini config" := by
            simp [grip_init, hq, h1]
          simp only [hred, FFIOutcome.isPanicked, true_iff]
          rintro ⟨ini2, qsec2, s1, n1, s2, n2, hcfg, hq2, h1r, -⟩
          simp only [Option.some.injEq] at hcfg
          subst hcfg
          rw [hq] at hq2
          simp only [Option.some.injEq] at hq2
          subst hq2
          rw [h1] at h1r
          exact Option.noConfusion h1r
        · intro ini2 qsec2 s1 n1 s2 n2 hcfg hq2 h1r hn1 h2 hn2
          simp only [Option.some.injEq] at hcfg
          subst hcfg
          rw [hq] at hq2
          simp only [Option.some.injEq] at hq2
          subst hq2
          rw [h1] at h1r
          exact Option.noConfusion h1r
      | some s1 =>
        cases hn1 : parseUsize s1 with
        | none =>
          refine ⟨?_, ?_⟩
          · have hred : grip_init none (some ini) =
                .panicked "callbacks-per-frame parse failure" := by
              simp [grip_init, hq, h1, hn1]
            simp only [hred, FFIOutcome.isPanicked, true_iff]
            rintro ⟨ini2, qsec2, s1r, n1, s2, n2, hcfg, hq2, h1r, hn1r, -⟩
            simp only [Option.some.injEq] at hcfg
            subst hcfg
            rw [hq] at hq2
            simp only [Option.some.injEq] at hq2
            subst hq2
            rw [h1] at h1r
            simp only [Option.some.injEq] at h1r
            subst h1r
            rw [hn1] at hn1r
            exact Option.noConfusion hn1r
          · intro ini2 qsec2 s1r n1 s2 n2 hcfg hq2 h1r hn1r h2 hn2
            simp only [Option.some.injEq] at hcfg
            subst hcfg
            rw [hq] at hq2
            simp only [Option.some.injEq] at hq2
            subst hq2
            rw [h1] at h1r
            simp only [Option.some.injEq] at h1r
            subst h1r
            rw [hn1] at hn1r
            exact Option.noConfusion hn1r
        | some n1 =>
          cases h2 : qsec.get "microseconds-delay-between-attempts" with
          | none =>
            refine ⟨?_, ?_⟩
            · have hred : grip_init none (some ini) =
                  .panicked "Missing queue.microseconds-delay-between-attempts key in the grip.ini config" := by
                simp [grip_init, hq, h1, hn1, h2]
              simp only [hred, FFIOutcome.isPanicked, true_iff]
              rintro ⟨ini2, qsec2, s1r, n1r, s2, n2, hcfg, hq2, h1r, hn1r, h2r, -⟩
              simp only [Option.some.injEq] at hcfg
              subst hcfg
              rw [hq] at hq2
              simp only [Option.some.injEq] at hq2
              subst hq2
              rw [h2] at h2r
              exact Option.noConfusion h2r
            · intro ini2 qsec2 s1r n1r s2 n2 hcfg hq2 h1r hn1r h2r hn2
              simp only [Option.some.injEq] at hcfg
              subst hcfg
              rw [hq] at hq2
              simp only [Option.some.injEq] at hq2
              subst hq2
              rw [h2] at h2r
              exact Option.noConfusion h2r
          | some s2 =>
            cases hn2 : parseUsize s2 with
            | none =>
              refine ⟨?_, ?_⟩
              · have hred : grip_init none (some ini) =
                    .panicked "microseconds-delay-between-attempts parse failure" := by
                  simp [grip_init, hq, h1, hn1, h2, hn2]
                simp only [hred, FFIOutcome.isPanicked, true_iff]
                rintro ⟨ini2, qsec2, s1r, n1r, s2r, n2, hcfg, hq2, h1r, hn1r, h2r, hn2r⟩
                simp only [Option.some.injEq] at hcfg
                subst hcfg
                rw [hq] at hq2
                simp only [Option.some.injEq] at hq2
                subst hq2
                rw [h2] at h2r
                simp only [Option.some.injEq] at h2r
                subst h2r
                rw [hn2] at hn2r
                exact Option.noConfusion hn2r
              · intro ini2 qsec2 s1r n1r s2r n2 hcfg hq2 h1r hn1r h2r hn2r
                simp only [Option.some.injEq] at hcfg
                subst hcfg
                rw [hq] at hq2
                simp only [Option.some.injEq] at hq2
                subst hq2
                rw [h2] at h2r
                simp only [Option.some.injEq] at h2r
                subst h2r
                rw [hn2] at hn2r
                exact Option.noConfusion hn2r
            | some n2 =>
              have hred : grip_init none (some ini) =
                  .ok (some (freshModule n1 n2)) := by
                simp [grip_init, hq, h1, hn1, h2, hn2]
              have hex : ∃ ini2 qsec2 s1r n1r s2r n2r,
                  (some ini : Option Ini) = some ini2 ∧
                  ini2.getSection "queue" = some qsec2 ∧
                  qsec2.get "callbacks-per-frame" = some s1r ∧
                  parseUsize s1r = some n1r ∧
                  qsec2.get "microseconds-delay-between-attempts" = some s2r ∧
                  parseUsize s2r = some n2r :=
                ⟨ini, qsec, s1, n1, s2, n2, rfl, hq, h1, hn1, h2, hn2⟩
              refine ⟨?_, ?_⟩
              · rw [hred]
                constructor
                · intro hcontra
                  exact absurd hcontra (by simp [FFIOutcome.isPanicked])
                · intro hcontra
                  exact absurd hex hcontra
              · intro ini2 qsec2 s1r n1r s2r n2r hcfg hq2 h1r hn1r h2r hn2r
                simp only [Option.some.injEq] at hcfg
                subst hcfg
                rw [hq] at hq2
                simp only [Option.some.injEq] at hq2
                subst hq2
                rw [h1] at h1r
                simp only [Option.some.injEq] at h1r
                subst h1r
                rw [hn1] at hn1r
                simp only [Option.some.injEq] at hn1r
                subst hn1r
                rw [h2] at h2r
                simp only [Option.some.injEq] at h2r
                subst h2r
                rw [hn2] at hn2r
                simp only [Option.some.injEq] at hn2r
                subst hn2r
                exact hred

theorem decodeRequestType_eq_none_iff (rt : Cell) :
    decodeRequestType rt = none ↔
      ¬ (rt = 0 ∨ rt = 1 ∨ rt = 2 ∨ rt = 3) := by
  unfold decodeRequestType
  split_ifs with h0 h1 h2 h3 <;> simp_all

theorem requestBodyArg_eq_none_iff (st : ModuleStorage) (h : Cell) :
    requestBodyArg st h = none ↔
      st.bodies_handles.get_with_id h = none ∧ h ≠ -1 := by
  unfold requestBodyArg
  cases hget : st.bodies_handles.get_with_id h with
  | none => by_cases hm : h = -1 <;> simp [Option.orElse, hm]
  | some b => simp [Option.orElse]

theorem requestOptionsArg_eq_none_iff (st : ModuleStorage) (h : Cell) :
    requestOptionsArg st h = none ↔
      st.options_handles.get_with_id h = none ∧ h ≠ -1 := by
  unfold requestOptionsArg
  cases hget : st.options_handles.get_with_id h with
  | none => by_cases hm : h = -1 <;> simp [Option.orElse, hm]
  | some b => simp [Option.orElse]

theorem grip_request_cases (st : ModuleStorage) (parseOk : String → Bool)
    (uri : CStrArg) (body_handle request_type options_handle : Cell) :
    (((grip_request st parseOk uri body_handle request_type options_handle).ret = 0 ∧
      (grip_request st parseOk uri body_handle request_type options_handle).submitted = none ∧
      (grip_request st parseOk uri body_handle request_type options_handle).state = st) ↔
      specSubmissionErrorCond st parseOk uri body_handle request_type options_handle) ∧
    (¬ specSubmissionErrorCond st parseOk uri body_handle request_type options_handle →
      (grip_request st parseOk uri body_handle request_type options_handle).submitted.isSome = true) ∧
    (∀ req, (grip_request st parseOk uri body_handle request_type options_handle).submitted = some req →
      req.closureCancellationId = st.cancellations_handles.peek_id ∧
      (grip_request st parseOk uri body_handle request_type options_handle).ret =
        st.cancellations_handles.peek_id ∧
      (grip_request st parseOk uri body_handle request_type options_handle).state.cancellations_handles =
        (st.cancellations_handles.insert_with_unique_id ⟨()⟩).2) := by
  cases hdec : decodeRequestType request_type with
  | none =>
    have hcond : specSubmissionErrorCond st parseOk uri body_handle request_type options_handle :=
      Or.inl ((decodeRequestType_eq_none_iff request_type).mp hdec)
    have hred : grip_request st parseOk uri body_handle request_type options_handle =
        ⟨0, st, none, ["Invalid request type " ++ toString request_type]⟩ := by
      simp [grip_request, hdec]
    rw [hred]
    exact ⟨⟨fun _ => hcond, fun _ => ⟨rfl, rfl, rfl⟩⟩,
      fun hn => absurd hcond hn,
      fun req hreq => absurd hreq (by simp)⟩
  | some t =>
    cases uri with
    | nullPtr =>
      have hcond : specSubmissionErrorCond st parseOk CStrArg.nullPtr body_handle request_type options_handle :=
        Or.inr (Or.inl rfl)
      have hred : grip_request st parseOk CStrArg.nullPtr body_handle request_type options_handle =
          ⟨0, st, none, ["Invalid URI."]⟩ := by
        simp [grip_request, hdec]
      rw [hred]
      exact ⟨⟨fun _ => hcond, fun _ => ⟨rfl, rfl, rfl⟩⟩,
        fun hn => absurd hcond hn,
        fun req hreq => absurd hreq (by simp)⟩
    | invalidUtf8 =>
      have hcond : specSubmissionErrorCond st parseOk CStrArg.invalidUtf8 body_handle request_type options_handle :=
        Or.inr (Or.inr (Or.inl rfl))
      have hred : grip_request st parseOk CStrArg.invalidUtf8 body_handle request_type options_handle =
          ⟨0, st, none, ["URI is not UTF-8"]⟩ := by
        simp [grip_request, hdec]
      rw [hred]
      exact ⟨⟨fun _ => hcond, fun _ => ⟨rfl, rfl, rfl⟩⟩,
        fun hn => absurd hcond hn,
        fun req hreq => absurd hreq (by simp)⟩
    | utf8 u =>
      cases hbody : requestBodyArg st body_handle with
      | none =>
        have hcond : specSubmissionErrorCond st parseOk (CStrArg.utf8 u) body_handle request_type options_handle :=
          Or.inr (Or.inr (Or.inr (Or.inr (Or.inl
            ((requestBodyArg_eq_none_iff st body_handle).mp hbody)))))
        have hred : grip_request st parseOk (CStrArg.utf8 u) body_handle request_type options_handle =
            ⟨0, st, none, ["Invalid body handle: " ++ toString body_handle]⟩ := by
          simp [grip_request, hdec, hbody]
        rw [hred]
        exact ⟨⟨fun _ => hcond, fun _ => ⟨rfl, rfl, rfl⟩⟩,
          fun hn => absurd hcond hn,
          fun req hreq => absurd hreq (by simp)⟩
      | some body =>
        cases hopts : requestOptionsArg st options_handle with
        | none =>
          have hcond : specSubmissionErrorCond st parseOk (CStrArg.utf8 u) body_handle request_type options_handle :=
            Or.inr (Or.inr (Or.inr (Or.inr (Or.inr
              ((requestOptionsArg_eq_none_iff st options_handle).mp hopts)))))
          have hred : grip_request st parseOk (CStrArg.utf8 u) body_handle request_type options_handle =
              ⟨0, st, none, ["Invalid options handle: " ++ toString options_handle]⟩ := by
            simp [grip_request, hdec, hbody, hopts]
          rw [hred]
          exact ⟨⟨fun _ => hcond, fun _ => ⟨rfl, rfl, rfl⟩⟩,
            fun hn => absurd hcond hn,
            fun req hreq => absurd hreq (by simp)⟩
        | some opts =>
          cases hparse : parseOk u with
          | false =>
            have hcond : specSubmissionErrorCond st parseOk (CStrArg.utf8 u) body_handle request_type options_handle :=
              Or.inr (Or.inr (Or.inr (Or.inl ⟨u, rfl, hparse⟩)))
            have hred : grip_request st parseOk (CStrArg.utf8 u) body_handle request_type options_handle =
                ⟨0, st, none, ["URI parsing error: " ++ u]⟩ := by
              simp [grip_request, hdec, hbody, hopts, hparse]
            rw [hred]
            exact ⟨⟨fun _ => hcond, fun _ => ⟨rfl, rfl, rfl⟩⟩,
              fun hn => absurd hcond hn,
              fun req hreq => absurd hreq (by simp)⟩
          | true =>
            have hnc : ¬ specSubmissionErrorCond st parseOk (CStrArg.utf8 u) body_handle request_type options_handle := by
              rintro (hbad | hbad | hbad | ⟨u2, hu2, hp2⟩ | ⟨hbn, hbne⟩ | ⟨hon, hone⟩)
              · have hcontra := (decodeRequestType_eq_none_iff request_type).mpr hbad
                rw [hdec] at hcontra
                exact Option.noConfusion hcontra
              · exact CStrArg.noConfusion hbad
              · exact CStrArg.noConfusion hbad
              · injection hu2 with h
                subst h
                rw [hparse] at hp2
                exact Bool.noConfusion hp2
              · have hcontra := (requestBodyArg_eq_none_iff st body_handle).mpr ⟨hbn, hbne⟩
                rw [hbody] at hcontra
                exact Option.noConfusion hcontra
              · have hcontra := (requestOptionsArg_eq_none_iff st options_handle).mpr ⟨hon, hone⟩
                rw [hopts] at hcontra
                exact Option.noConfusion hcontra
            have hred : grip_request st parseOk (CStrArg.utf8 u) body_handle request_type options_handle =
                ⟨(st.cancellations_handles.insert_with_unique_id ⟨()⟩).1,
                  {st with cancellations_handles :=
                    (st.cancellations_handles.insert_with_unique_id ⟨()⟩).2},
                  some ⟨t, u, body, opts, st.cancellations_handles.peek_id⟩, []⟩ := by
              simp [grip_request, hdec, hbody, hopts, hparse, CellMap.peek_id,
                CellMap.insert_with_unique_id]
            rw [hred]
            refine ⟨⟨fun hc => absurd hc.2.1 (by simp), fun hc => absurd hc hnc⟩,
              fun _ => rfl, ?_⟩
            intro req hreq
            simp only [Option.some.injEq] at hreq
            subst hreq
            exact ⟨rfl, rfl, rfl⟩

/-- C6: `grip_request` returns a submission error — 0, synchronously, with
no request handed to the queue and the state unchanged, so no token
inserted — exactly when the method code is not one of 0..3, the URI is null,
not UTF-8 or fails to parse, or the body or options handle is neither a live
entry of its table nor the absent sentinel `-1`; otherwise it hands the
request to the queue and returns the freshly inserted cancellation
handle. -/
theorem grip_request_submission_error_iff (st : ModuleStorage)
    (parseOk : String → Bool) (uri : CStrArg)
    (body_handle request_type options_handle : Cell) :
    (((grip_request st parseOk uri body_handle request_type options_handle).ret = 0 ∧
      (grip_request st parseOk uri body_handle request_type options_handle).submitted = none ∧
      (grip_request st parseOk uri body_handle request_type options_handle).state = st) ↔
      specSubmissionErrorCond st parseOk uri body_handle request_type options_handle) ∧
    (¬ specSubmissionErrorCond st parseOk uri body_handle request_type options_handle →
      ∃ req, (grip_request st parseOk uri body_handle request_type options_handle).submitted = some req ∧
        (grip_request st parseOk uri body_handle request_type options_handle).ret =
          st.cancellations_handles.peek_id ∧
        (grip_request st parseOk uri body_handle request_type options_handle).state.cancellations_handles =
          (st.cancellations_handles.insert_with_unique_id ⟨()⟩).2) := by
  obtain ⟨h1, h2, h3⟩ :=
    grip_request_cases st parseOk uri body_handle request_type options_handle
  refine ⟨h1, fun hn => ?_⟩
  obtain ⟨req, hreq⟩ := Option.isSome_iff_exists.mp (h2 hn)
  obtain ⟨-, hb, hc⟩ := h3 req hreq
  exact ⟨req, hreq, hb, hc⟩

/-- C3: for any table, `peek_next_id` called immediately before `insert`
equals the id `insert` returns; for every successful submission the handle
`grip_request` returns equals the `next_cancellation_id` the completion
closure captured before the token was inserted, so the closure removes
exactly the cancellation entry the returned handle denotes. -/
theorem request_handle_is_peeked_id (α : Type) (m : CellMap α) (v : α)
    (st st2 : ModuleStorage) (parseOk : String → Bool) (uri : CStrArg)
    (body_handle request_type options_handle : Cell)
    (req : SubmittedRequest) (resp : Except GripErrorKind Response)
    (hsub : (grip_request st parseOk uri body_handle request_type options_handle).submitted = some req) :
    m.peek_id = (m.insert_with_unique_id v).1 ∧
    (grip_request st parseOk uri body_handle request_type options_handle).ret =
      req.closureCancellationId ∧
    (requestCompletionClosure req.closureCancellationId (fun s => s) resp st2).final.cancellations_handles =
      (st2.cancellations_handles.remove_with_id
        (grip_request st parseOk uri body_handle request_type options_handle).ret).2 := by
  obtain ⟨-, -, h3⟩ :=
    grip_request_cases st parseOk uri body_handle request_type options_handle
  obtain ⟨hc, hb, -⟩ := h3 req hsub
  have hret : (grip_request st parseOk uri body_handle request_type options_handle).ret =
      req.closureCancellationId := by
    rw [hb, hc]
  refine ⟨rfl, hret, ?_⟩
  rw [hret]
  rfl

theorem request_handle_is_peeked_id_witness :
    (grip_request (freshModule 1 1) (fun _ => true) (CStrArg.utf8 "http://x") (-1) 0 (-1)).submitted =
      some ⟨RequestType.get, "http://x", [], RequestOptions.default, 0⟩ ∧
    ((CellMap.new : CellMap Nat).peek_id =
      ((CellMap.new : CellMap Nat).insert_with_unique_id 7).1 ∧
    (grip_request (freshModule 1 1) (fun _ => true) (CStrArg.utf8 "http://x") (-1) 0 (-1)).ret =
      (⟨RequestType.get, "http://x", [], RequestOptions.default, 0⟩ : SubmittedRequest).closureCancellationId ∧
    (requestCompletionClosure
        (⟨RequestType.get, "http://x", [], RequestOptions.default, 0⟩ : SubmittedRequest).closureCancellationId
        (fun s => s) (.ok ⟨200, []⟩) (freshModule 1 1)).final.cancellations_handles =
      ((freshModule 1 1).cancellations_handles.remove_with_id
        (grip_request (freshModule 1 1) (fun _ => true) (CStrArg.utf8 "http://x") (-1) 0 (-1)).ret).2) :=
  ⟨rfl, request_handle_is_peeked_id Nat CellMap.new 7 (freshModule 1 1) (freshModule 1 1)
    (fun _ => true) (CStrArg.utf8 "http://x") (-1) 0 (-1)
    ⟨RequestType.get, "http://x", [], RequestOptions.default, 0⟩ (.ok ⟨200, []⟩) rfl⟩

/-- C7: a cancel on a handle with no live cancellation entry is a normal
"not found" result — 0 returned to the caller, state unchanged, a diagnostic
logged, no panic; a cancel on a live handle removes the token and returns 1;
and a drain step that finds no token for the oldest completion discards it
without invoking its callback. -/
theorem grip_cancel_request_semantics (st st2 : ModuleStorage) (h h2 : Cell)
    (tok : RequestCancellation) (qs : QueueState) (r : CompletionRecord)
    (rest : List CompletionRecord)
    (hdead : st.cancellations_handles.get_with_id h = none)
    (halive : st2.cancellations_handles.get_with_id h2 = some tok)
    (hbuf : qs.buffer = r :: rest)
    (htok : qs.tokens.get_with_id r.cancellationId = none) :
    (grip_cancel_request st h).ret = 0 ∧
    (grip_cancel_request st h).state = st ∧
    (grip_cancel_request st h).log ≠ [] ∧
    (grip_cancel_request st2 h2).ret = 1 ∧
    (grip_cancel_request st2 h2).state.cancellations_handles.get_with_id h2 = none ∧
    drainOne qs = ⟨qs.tokens, rest, qs.callbacksFired⟩ := by
  have hrem := CellMap.remove_of_get_none st.cancellations_handles h hdead
  have hd1 : grip_cancel_request st h =
      ⟨0, st, ["Cancellation with the id " ++ toString h ++ " doesn't exist."]⟩ := by
    simp [grip_cancel_request, hrem]
  have hdrain : drainOne qs = ⟨qs.tokens, rest, qs.callbacksFired⟩ := by
    simp [drainOne, hbuf, htok]
  unfold CellMap.get_with_id at halive
  cases hf : st2.cancellations_handles.entries.find? (fun p => p.1 == h2) with
  | none => rw [hf] at halive; simp at halive
  | some p =>
    have hremove : st2.cancellations_handles.remove_with_id h2 =
        (some p.2, ⟨st2.cancellations_handles.entries.filter (fun q => q.1 != h2),
          st2.cancellations_handles.nextId⟩) := by
      simp [CellMap.remove_with_id, hf]
    refine ⟨?_, ?_, ?_, ?_, ?_, hdrain⟩
    · rw [hd1]
    · rw [hd1]
    · rw [hd1]; simp
    · simp [grip_cancel_request, hremove]
    · simp [grip_cancel_request, hremove, CellMap.get_with_id, filter_ne_find_none]

theorem grip_cancel_request_semantics_witness :
    ((freshModule 1 1).cancellations_handles.get_with_id 9 = none) ∧
    (({freshModule 1 1 with cancellations_handles :=
        (CellMap.new.insert_with_unique_id ⟨()⟩).2} : ModuleStorage).cancellations_handles.get_with_id 0 =
      some ⟨()⟩) ∧
    ((⟨CellMap.new, [⟨0, .ok ⟨200, []⟩⟩], 0⟩ : QueueState).buffer =
      ⟨0, .ok ⟨200, []⟩⟩ :: []) ∧
    ((⟨CellMap.new, [⟨0, .ok ⟨200, []⟩⟩], 0⟩ : QueueState).tokens.get_with_id
      (⟨0, .ok ⟨200, []⟩⟩ : CompletionRecord).cancellationId = none) ∧
    ((grip_cancel_request (freshModule 1 1) 9).ret = 0 ∧
     (grip_cancel_request (freshModule 1 1) 9).state = freshModule 1 1 ∧
     (grip_cancel_request (freshModule 1 1) 9).log ≠ [] ∧
     (grip_cancel_request {freshModule 1 1 with cancellations_handles :=
        (CellMap.new.insert_with_unique_id ⟨()⟩).2} 0).ret = 1 ∧
     (grip_cancel_request {freshModule 1 1 with cancellations_handles :=
        (CellMap.new.insert_with_unique_id ⟨()⟩).2} 0).state.cancellations_handles.get_with_id 0 = none ∧
     drainOne ⟨CellMap.new, [⟨0, .ok ⟨200, []⟩⟩], 0⟩ =
       ⟨(⟨CellMap.new, [⟨0, .ok ⟨200, []⟩⟩], 0⟩ : QueueState).tokens, [],
         (⟨CellMap.new, [⟨0, .ok ⟨200, []⟩⟩], 0⟩ : QueueState).callbacksFired⟩) :=
  ⟨rfl, rfl, rfl, rfl,
    grip_cancel_request_semantics (freshModule 1 1)
      {freshModule 1 1 with cancellations_handles :=
        (CellMap.new.insert_with_unique_id ⟨()⟩).2}
      9 0 ⟨()⟩ ⟨CellMap.new, [⟨0, .ok ⟨200, []⟩⟩], 0⟩ ⟨0, .ok ⟨200, []⟩⟩ []
      rfl rfl rfl rfl⟩

theorem drainOne_empty (qs : QueueState)
    (h : ∀ i, qs.tokens.get_with_id i = none) :
    (drainOne qs).tokens = qs.tokens ∧
    (drainOne qs).callbacksFired = qs.callbacksFired := by
  unfold drainOne
  cases hb : qs.buffer with
  | nil => exact ⟨rfl, rfl⟩
  | cons r rest => simp [h r.cancellationId]

theorem drain_keeps_empty (n : Nat) : ∀ qs : QueueState,
    (∀ i, qs.tokens.get_with_id i = none) →
    (drain n qs).tokens = qs.tokens ∧
    (drain n qs).callbacksFired = qs.callbacksFired := by
  induction n with
  | zero => intro qs _; exact ⟨rfl, rfl⟩
  | succ n ih =>
    intro qs h
    have h1 := drainOne_empty qs h
    have h2 := ih (drainOne qs) (fun i => by rw [h1.1]; exact h i)
    have hstep : drain (n + 1) qs = drain n (drainOne qs) := rfl
    rw [hstep, h2.1, h2.2, h1.1, h1.2]
    exact ⟨rfl, rfl⟩

theorem runEvents_keeps_empty (evs : List PostShutdownEvent) :
    ∀ qs : QueueState, (∀ i, qs.tokens.get_with_id i = none) →
    (runEvents qs evs).callbacksFired = qs.callbacksFired ∧
    (∀ i, (runEvents qs evs).tokens.get_with_id i = none) := by
  induction evs with
  | nil => intro qs h; exact ⟨rfl, h⟩
  | cons e t ih =>
    intro qs h
    cases e with
    | workerFinish r =>
      have h2 := ih (stepEvent qs (.workerFinish r)) (fun i => h i)
      exact ⟨h2.1, h2.2⟩
    | hostDrain n =>
      have hd := drain_keeps_empty n qs h
      have h2 := ih (drain n qs) (fun i => by rw [hd.1]; exact h i)
      exact ⟨h2.1.trans hd.2, h2.2⟩

/-- C8: shutdown clears the cancellation table before discarding the queue —
`grip_deinit` leaves a module state whose cancellation lookups all fail at
the instant before the module is dropped, and `MODULE` is `None`
afterwards — and in the spec-modelled queue, after `shutdown` every token
lookup fails and any trace of later worker completions and host drains
invokes zero further callbacks. -/
theorem shutdown_suppresses_all_callbacks (st : ModuleStorage)
    (qs : QueueState) (evs : List PostShutdownEvent) :
    (∃ st2, (grip_deinit (some st)).1 = some st2 ∧
      ∀ i, st2.cancellations_handles.get_with_id i = none) ∧
    (grip_deinit (some st)).2 = none ∧
    (∀ i, (queueShutdown qs).tokens.get_with_id i = none) ∧
    (runEvents (queueShutdown qs) evs).callbacksFired = qs.callbacksFired := by
  refine ⟨⟨{st with cancellations_handles := st.cancellations_handles.clear},
    rfl, fun i => CellMap.get_clear _ i⟩, rfl, fun i => CellMap.get_clear _ i, ?_⟩
  exact (runEvents_keeps_empty evs (queueShutdown qs)
    (fun i => CellMap.get_clear _ i)).1

theorem stepHost_preserves_none (st : ModuleStorage) (e : HostEvent)
    (h : st.current_response = none) :
    (stepHost st e).current_response = none := by
  cases e with
  | cancelRequest hc =>
    show ((grip_cancel_request st hc).state).current_response = none
    cases hrm : st.cancellations_handles.remove_with_id hc with
    | mk fst snd =>
      cases fst with
      | none => simp [grip_cancel_request, hrm, h]
      | some tok => simp [grip_cancel_request, hrm, h]
  | completionDelivery id f resp => rfl

theorem foldl_stepHost_none (evs : List HostEvent) :
    ∀ st : ModuleStorage, st.current_response = none →
    (evs.foldl stepHost st).current_response = none := by
  induction evs with
  | nil => intro st h; exact h
  | cons e t ih =>
    intro st h
    exact ih (stepHost st e) (stepHost_preserves_none st e h)

/-- C10: `current_response` is `Some` exactly during execution of a
completion callback — the closure built by `grip_request` enters the handler
with `current_response` set to the resolved response (so the state accessor
returns a non-zero response state there), resets it to `None` after the
handler returns, and removes the captured cancellation token; outside a
callback — across any sequence of host-thread cancels and complete
deliveries starting from a no-response state — `current_response` stays
`None` and `grip_get_response_state` returns 0 with a logged diagnostic. -/
theorem current_response_scoped_to_callback (id : Cell)
    (handler : ModuleStorage → ModuleStorage)
    (resp : Except GripErrorKind Response) (st outside start : ModuleStorage)
    (evs : List HostEvent)
    (houtside : outside.current_response = none)
    (hstart : start.current_response = none) :
    (requestCompletionClosure id handler resp st).handlerInput.current_response = some resp ∧
    (grip_get_response_state (requestCompletionClosure id handler resp st).handlerInput).1 ≠ 0 ∧
    (requestCompletionClosure id handler resp st).final.current_response = none ∧
    (requestCompletionClosure id (fun s => s) resp st).final.cancellations_handles =
      (st.cancellations_handles.remove_with_id id).2 ∧
    grip_get_response_state outside =
      (0, ["Response state can only be received in the request callback"]) ∧
    (evs.foldl stepHost start).current_response = none := by
  refine ⟨rfl, ?_, rfl, rfl, ?_, foldl_stepHost_none evs start hstart⟩
  · show (grip_get_response_state {st with current_response := some resp}).1 ≠ 0
    cases resp with
    | ok r => simp [grip_get_response_state]
    | error e => cases e <;> simp [grip_get_response_state]
  · simp [grip_get_response_state, houtside]

theorem current_response_scoped_witness :
    ((freshModule 1 1).current_response = none) ∧
    ((requestCompletionClosure 0 (fun s => s) (.ok ⟨200, []⟩)
        (freshModule 1 1)).handlerInput.current_response = some (.ok ⟨200, []⟩) ∧
     (grip_get_response_state (requestCompletionClosure 0 (fun s => s)
        (.ok ⟨200, []⟩) (freshModule 1 1)).handlerInput).1 ≠ 0 ∧
     (requestCompletionClosure 0 (fun s => s) (.ok ⟨200, []⟩)
        (freshModule 1 1)).final.current_response = none ∧
     (requestCompletionClosure 0 (fun s => s) (.ok ⟨200, []⟩)
        (freshModule 1 1)).final.cancellations_handles =
       ((freshModule 1 1).cancellations_handles.remove_with_id 0).2 ∧
     grip_get_response_state (freshModule 1 1) =
       (0, ["Response state can only be received in the request callback"]) ∧
     (([HostEvent.cancelRequest 3,
        HostEvent.completionDelivery 0 (fun s => s) (.ok ⟨200, []⟩)]).foldl
        stepHost (freshModule 1 1)).current_response = none) :=
  ⟨rfl, current_response_scoped_to_callback 0 (fun s => s) (.ok ⟨200, []⟩)
    (freshModule 1 1) (freshModule 1 1) (freshModule 1 1)
    [HostEvent.cancelRequest 3,
     HostEvent.completionDelivery 0 (fun s => s) (.ok ⟨200, []⟩)] rfl rfl⟩

end Grip
